import Mathlib

/-!
Shallow embedding of the Z16 instruction-set simulator (src/z16sim.cpp) and
proofs about its decoder, disassembler, execution engine and fetch-execute
loop.  Machine integers are modelled as `Nat` (or `Int` for signed
intermediates), reduced modulo 2^8 / 2^16 exactly where the C code performs a
narrowing conversion.
-/

namespace Z16

/-- Memory capacity in bytes: `#define MEM_SIZE 65536` (z16sim.cpp line 39). -/
def MEM_SIZE : Nat := 65536

/-- The simulator's global state (z16sim.cpp lines 42-44): the register file
`uint16_t regs[8]`, the program counter `uint16_t pc`, and the byte memory
`unsigned char memory[MEM_SIZE]`.  Registers and memory are total functions;
every register index the program forms is masked with `& 0x7`, and every value
stored through a `uint16_t` is reduced mod 2^16 at the store. -/
structure SimState where
  regs : Nat → Nat
  pc : Nat
  mem : Nat → Nat

/-- Register ABI names, `const char *regNames[8]` (line 47). -/
def regNames (i : Nat) : String :=
  if i = 0 then "t0" else if i = 1 then "ra" else if i = 2 then "sp"
  else if i = 3 then "s0" else if i = 4 then "s1" else if i = 5 then "t1"
  else if i = 6 then "a0" else "a1"

/-- One upper-case hexadecimal digit, as printf's %X renders a value 0-15. -/
def hexDigit (n : Nat) : String :=
  if n = 0 then "0" else if n = 1 then "1" else if n = 2 then "2"
  else if n = 3 then "3" else if n = 4 then "4" else if n = 5 then "5"
  else if n = 6 then "6" else if n = 7 then "7" else if n = 8 then "8"
  else if n = 9 then "9" else if n = 10 then "A" else if n = 11 then "B"
  else if n = 12 then "C" else if n = 13 then "D" else if n = 14 then "E"
  else "F"

/-- The `disassemble` function (lines 56-219).  The first component is the
text the function prints with printf; the second is what it writes into `buf`,
which happens only in the `default` branch (line 216, `"Unknown opcode"`).
All field extractions and masks are exactly those of the source, including the
4-bit mask on the I-type immediate (line 94, `(inst >> 9) & 0xF`), the left
shift in the U-type `imm_high` (line 198, `(inst << 9) & 0x3F`), and the
storage of `(inst >> 6) & 0x1FF` into a `uint8_t` for `svc` (line 210), which
truncates mod 256.  In the I-type shift sub-decode (lines 104-115) `imm7` is
already below 16, so printf's %02X is a literal `0` followed by one hex
digit. -/
def disassemble (inst pc : Nat) : String × Option String :=
  if inst &&& 0x7 = 0x0 then
    let funct4 := (inst >>> 12) &&& 0xF
    let rs2 := (inst >>> 9) &&& 0x7
    let rd_rs1 := (inst >>> 6) &&& 0x7
    let funct3 := (inst >>> 3) &&& 0x7
    (if funct4 = 0x0 ∧ funct3 = 0x0 then "add " ++ regNames rd_rs1 ++ ", " ++ regNames rs2
     else if funct4 = 0x1 ∧ funct3 = 0x0 then "sub " ++ regNames rd_rs1 ++ ", " ++ regNames rs2
     else if funct4 = 0x2 ∧ funct3 = 0x1 then "slt " ++ regNames rd_rs1 ++ ", " ++ regNames rs2
     else if funct4 = 0x3 ∧ funct3 = 0x2 then "sltu " ++ regNames rd_rs1 ++ ", " ++ regNames rs2
     else if funct4 = 0x4 ∧ funct3 = 0x3 then "sll " ++ regNames rd_rs1 ++ ", " ++ regNames rs2
     else if funct4 = 0x5 ∧ funct3 = 0x3 then "srl " ++ regNames rd_rs1 ++ ", " ++ regNames rs2
     else if funct4 = 0x6 ∧ funct3 = 0x3 then "sra " ++ regNames rd_rs1 ++ ", " ++ regNames rs2
     else if funct4 = 0x7 ∧ funct3 = 0x4 then "or " ++ regNames rd_rs1 ++ ", " ++ regNames rs2
     else if funct4 = 0x8 ∧ funct3 = 0x5 then "and " ++ regNames rd_rs1 ++ ", " ++ regNames rs2
     else if funct4 = 0x9 ∧ funct3 = 0x6 then "xor " ++ regNames rd_rs1 ++ ", " ++ regNames rs2
     else if funct4 = 0xA ∧ funct3 = 0x7 then "mv " ++ regNames rd_rs1 ++ ", " ++ regNames rs2
     else if funct4 = 0xB ∧ funct3 = 0x0 then "jr " ++ regNames rd_rs1
     else if funct4 = 0xC ∧ funct3 = 0x0 then "jalr " ++ regNames rd_rs1 ++ ", " ++ regNames rs2
     else "", none)
  else if inst &&& 0x7 = 0x1 then
    let imm7 := (inst >>> 9) &&& 0xF
    let rd_rs1 := (inst >>> 6) &&& 0x7
    let funct3 := (inst >>> 3) &&& 0x7
    (if funct3 = 0x0 then "addi " ++ regNames rd_rs1 ++ ", " ++ toString imm7
     else if funct3 = 0x1 then "slti " ++ regNames rd_rs1 ++ ", " ++ toString imm7
     else if funct3 = 0x2 then "sltui " ++ regNames rd_rs1 ++ ", " ++ toString imm7
     else if funct3 = 0x3 then
       let shamt_mode := (imm7 >>> 4) &&& 0x7
       let shamt := imm7 &&& 0xF
       if shamt_mode = 0x1 then "slli " ++ regNames rd_rs1 ++ ", " ++ toString shamt
       else if shamt_mode = 0x2 then "srli " ++ regNames rd_rs1 ++ ", " ++ toString shamt
       else if shamt_mode = 0x4 then "srai " ++ regNames rd_rs1 ++ ", " ++ toString shamt
       else "unknown shift " ++ regNames rd_rs1 ++ ", imm=0x0" ++ hexDigit imm7
     else if funct3 = 0x4 then "ori " ++ regNames rd_rs1 ++ ", " ++ toString imm7
     else if funct3 = 0x5 then "andi " ++ regNames rd_rs1 ++ ", " ++ toString imm7
     else if funct3 = 0x6 then "xori " ++ regNames rd_rs1 ++ ", " ++ toString imm7
     else if funct3 = 0x7 then "li " ++ regNames rd_rs1 ++ ", " ++ toString imm7
     else "", none)
  else if inst &&& 0x7 = 0x2 then
    let offset := (inst >>> 12) &&& 0xF
    let rs2 := (inst >>> 9) &&& 0x7
    let rd_rs1 := (inst >>> 6) &&& 0x7
    let funct3 := (inst >>> 3) &&& 0x7
    (if funct3 = 0x0 then
       "beq " ++ regNames rd_rs1 ++ ", " ++ regNames rs2 ++ ", " ++ toString offset
     else if funct3 = 0x1 then
       "bne " ++ regNames rd_rs1 ++ ", " ++ regNames rs2 ++ ", " ++ toString offset
     else if funct3 = 0x2 then "bz " ++ regNames rd_rs1 ++ ", " ++ toString offset
     else if funct3 = 0x3 then "bnz " ++ regNames rd_rs1 ++ ", " ++ toString offset
     else if funct3 = 0x4 then
       "blt " ++ regNames rd_rs1 ++ ", " ++ regNames rs2 ++ ", " ++ toString offset
     else if funct3 = 0x5 then
       "bge " ++ regNames rd_rs1 ++ ", " ++ regNames rs2 ++ ", " ++ toString offset
     else if funct3 = 0x6 then
       "bltu " ++ regNames rd_rs1 ++ ", " ++ regNames rs2 ++ ", " ++ toString offset
     else "bgeu " ++ regNames rd_rs1 ++ ", " ++ regNames rs2 ++ ", " ++ toString offset,
     none)
  else if inst &&& 0x7 = 0x3 then
    let offset := (inst >>> 12) &&& 0xF
    let rs2 := (inst >>> 9) &&& 0x7
    let rd_rs1 := (inst >>> 6) &&& 0x7
    let funct3 := (inst >>> 3) &&& 0x7
    (if funct3 = 0x0 then
       "sb " ++ regNames rd_rs1 ++ ", " ++ toString offset ++ "(" ++ regNames rs2 ++ ")"
     else if funct3 = 0x1 then
       "sw " ++ regNames rd_rs1 ++ ", " ++ toString offset ++ "(" ++ regNames rs2 ++ ")"
     else "", none)
  else if inst &&& 0x7 = 0x4 then
    let offset := (inst >>> 12) &&& 0xF
    let rs2 := (inst >>> 9) &&& 0x7
    let rd := (inst >>> 6) &&& 0x7
    let funct3 := (inst >>> 3) &&& 0x7
    (if funct3 = 0x0 then
       "lb " ++ regNames rd ++ ", " ++ toString offset ++ "(" ++ regNames rs2 ++ ")"
     else if funct3 = 0x1 then
       "lw " ++ regNames rd ++ ", " ++ toString offset ++ "(" ++ regNames rs2 ++ ")"
     else if funct3 = 0x4 then
       "lbu " ++ regNames rd ++ ", " ++ toString offset ++ "(" ++ regNames rs2 ++ ")"
     else "", none)
  else if inst &&& 0x7 = 0x5 then
    let flag := (inst >>> 15) &&& 0x1
    let rd := (inst >>> 6) &&& 0x7
    let imm_high := (inst >>> 9) &&& 0x3F
    let imm_low := (inst >>> 3) &&& 0x7
    let imm := ((imm_high <<< 4) ||| (imm_low <<< 1)) % 65536
    (if flag = 0x0 then "j " ++ toString imm
     else if flag = 0x1 then "jal " ++ regNames rd ++ ", " ++ toString imm
     else "", none)
  else if inst &&& 0x7 = 0x6 then
    let flag := (inst >>> 15) &&& 0x1
    let rd := (inst >>> 6) &&& 0x7
    let imm_high := ((inst <<< 9) &&& 0x3F) % 256
    let imm_low := (inst >>> 3) &&& 0x7
    let imm := ((imm_high <<< 10) ||| (imm_low <<< 7)) % 65536
    (if flag = 0x0 then "lui " ++ regNames rd ++ ", " ++ toString imm
     else if flag = 0x1 then "auipc " ++ regNames rd ++ ", " ++ toString imm
     else "", none)
  else if inst &&& 0x7 = 0x7 then
    let svc := ((inst >>> 6) &&& 0x1FF) % 256
    ("ecall " ++ toString svc, none)
  else
    ("", some "Unknown opcode")

/-- The I-type immediate field as the executor extracts it:
`uint8_t imm7 = (inst >> 9) & 0x7F` (line 246) — a 7-bit mask, unlike the
disassembler's 4-bit mask on line 94. -/
def exec_imm7 (inst : Nat) : Nat := (inst >>> 9) &&& 0x7F

/-- The sign-extended I-type immediate the executor computes (line 249):
`int16_t simm = (imm7 & 0x40) ? (imm7 | 0xFF80) : imm7`, with the int16_t
read back as a mathematical integer. -/
def exec_simm (inst : Nat) : Int :=
  if exec_imm7 inst &&& 0x40 ≠ 0 then ((exec_imm7 inst ||| 0xFF80 : Nat) : Int) - 65536
  else (exec_imm7 inst : Int)

/-- Conversion of an int expression to uint16_t: reduce into [0, 2^16). -/
def wrap16 (x : Int) : Nat := (x % 65536).toNat

/-- Assignment `regs[r] = v` to the register file. -/
def setReg (s : SimState) (r v : Nat) : SimState :=
  { s with regs := fun i => if i = r then v else s.regs i }

/-- The default advance `pc += 2` at the end of `executeInstruction`
(lines 281-282); pc is uint16_t, so the increment wraps mod 2^16. -/
def incPC (s : SimState) : SimState := { s with pc := (s.pc + 2) % 65536 }

/-- Result of `executeInstruction` (lines 227-284): `halt = true` when the C
function returns 0 (only the `svc == 0x3FF` test, line 273), `st` the updated
globals, `out` the lines the function itself prints (only the `default`
branch prints, line 277). -/
structure ExecResult where
  halt : Bool
  st : SimState
  out : List String

/-- The `executeInstruction` function (lines 227-284).  Branch structure
mirrors the C switch: R-type implements only add (line 239) and sub
(line 241); the cases for opcodes 1, 2, 3, 5, 6 are unfilled stubs (the I-type
case computes `imm7`/`simm`, see `exec_imm7` and `exec_simm`, but changes no
state); the switch has no case for opcode 4, which therefore falls into the
`default` branch together with any other unmatched value; the System case
compares the uint8_t-truncated `svc` against 0x3FF.  Since `pcUpdated` is
never set, every path that returns 1 performs `pc += 2`. -/
def executeInstruction (inst : Nat) (s : SimState) : ExecResult :=
  if inst &&& 0x7 = 0x0 then
    if (inst >>> 12) &&& 0xF = 0x0 ∧ (inst >>> 3) &&& 0x7 = 0x0 then
      { halt := false,
        st := incPC (setReg s ((inst >>> 6) &&& 0x7)
          ((s.regs ((inst >>> 6) &&& 0x7) + s.regs ((inst >>> 9) &&& 0x7)) % 65536)),
        out := [] }
    else if (inst >>> 12) &&& 0xF = 0x1 ∧ (inst >>> 3) &&& 0x7 = 0x0 then
      { halt := false,
        st := incPC (setReg s ((inst >>> 6) &&& 0x7)
          (wrap16 ((s.regs ((inst >>> 6) &&& 0x7) : Int) - (s.regs ((inst >>> 9) &&& 0x7) : Int)))),
        out := [] }
    else { halt := false, st := incPC s, out := [] }
  else if inst &&& 0x7 = 0x1 then
    { halt := false, st := incPC s, out := [] }
  else if inst &&& 0x7 = 0x2 then
    { halt := false, st := incPC s, out := [] }
  else if inst &&& 0x7 = 0x3 then
    { halt := false, st := incPC s, out := [] }
  else if inst &&& 0x7 = 0x5 then
    { halt := false, st := incPC s, out := [] }
  else if inst &&& 0x7 = 0x6 then
    { halt := false, st := incPC s, out := [] }
  else if inst &&& 0x7 = 0x7 then
    if ((inst >>> 6) &&& 0x1FF) % 256 = 0x3FF then
      { halt := true, st := s, out := [] }
    else { halt := false, st := incPC s, out := [] }
  else
    { halt := false, st := incPC s,
      out := ["Unknown instruction opcode 0x" ++ toString (inst &&& 0x7) ++ "\n"] }

/-- The instruction fetch in main (line 319):
`uint16_t inst = memory[pc] | (memory[pc + 1] << 8)` — little-endian bytes at
pc and pc+1, the `|` computed in int and converted to uint16_t. -/
def fetchWord (s : SimState) : Nat :=
  (s.mem s.pc ||| s.mem (s.pc + 1) <<< 8) % 65536

/-- The memory indices the fetch expression on line 319 accesses: `pc` and
`pc + 1`, computed in int arithmetic (no 16-bit wrap on the `+ 1`). -/
def fetchReads (pc : Nat) : List Nat := [pc, pc + 1]

/-- Outcome of one iteration of main's while loop (lines 317-330): `halted`
covers the three exits (guard false, `executeInstruction` returned 0, the
`pc >= MEM_SIZE` break); `next` carries the trace line (fetch address and
disassembled text, lines 320-321) and the state for the next iteration. -/
inductive LoopOut where
  | halted (s : SimState)
  | next (addr : Nat) (txt : String) (s : SimState)

/-- One iteration of the while loop in main (lines 317-330).  The C code
calls `executeInstruction` once; the model is pure, so repeating the call
denotes the same value. -/
def loopStep (s : SimState) : LoopOut :=
  if s.pc < MEM_SIZE then
    if (executeInstruction (fetchWord s) s).halt then
      .halted (executeInstruction (fetchWord s) s).st
    else if MEM_SIZE ≤ (executeInstruction (fetchWord s) s).st.pc then
      .halted (executeInstruction (fetchWord s) s).st
    else
      .next s.pc (disassemble (fetchWord s) s.pc).1
        (executeInstruction (fetchWord s) s).st
  else .halted s

/-- Whether a loop outcome is a halt. -/
def isHalted : LoopOut → Bool
  | .halted _ => true
  | .next _ _ _ => false

/-- The simulator state carried by a loop outcome. -/
def pcOfL : LoopOut → Nat
  | .halted s => s.pc
  | .next _ _ s => s.pc

/-- The two-state machine of the fetch-execute loop: RUNNING or HALTED. -/
inductive MState where
  | running (s : SimState)
  | halted (s : SimState)

/-- One transition of the loop state machine; HALTED is terminal. -/
def mstep (m : MState) : MState :=
  match m with
  | .halted s => .halted s
  | .running s =>
    match loopStep s with
    | .halted t => .halted t
    | .next _ _ t => .running t

/-- n transitions of the loop state machine. -/
def mrun : Nat → MState → MState
  | 0, m => m
  | n + 1, m => mrun n (mstep m)

/-- The program counter of a machine state. -/
def pcOfM : MState → Nat
  | .running s => s.pc
  | .halted s => s.pc

/-- The state main starts the loop from (lines 312-313): registers zeroed,
pc = 0, memory as loaded from the image. -/
def initState (mem : Nat → Nat) : SimState :=
  { regs := fun _ => 0, pc := 0, mem := mem }

/-- One observable step of main's loop, as a relation: from a loop-machine
state, the trace entries emitted (fetch address and disassembled text,
lines 320-322) and the successor state.  The constructors are the control
paths of the loop body: guard failure, halt reported by the execution engine,
the post-execution bounds break, and the ordinary continue. -/
inductive StepR : MState → List (Nat × String) → MState → Prop where
  | stay (s : SimState) : StepR (.halted s) [] (.halted s)
  | exhaust (s : SimState) (h : MEM_SIZE ≤ s.pc) : StepR (.running s) [] (.halted s)
  | svcStop (s : SimState) (r : ExecResult) (h1 : s.pc < MEM_SIZE)
      (h2 : executeInstruction (fetchWord s) s = r) (h3 : r.halt = true) :
      StepR (.running s) [(s.pc, (disassemble (fetchWord s) s.pc).1)] (.halted r.st)
  | pcOver (s : SimState) (r : ExecResult) (h1 : s.pc < MEM_SIZE)
      (h2 : executeInstruction (fetchWord s) s = r) (h3 : r.halt = false)
      (h4 : MEM_SIZE ≤ r.st.pc) :
      StepR (.running s) [(s.pc, (disassemble (fetchWord s) s.pc).1)] (.halted r.st)
  | step (s : SimState) (r : ExecResult) (h1 : s.pc < MEM_SIZE)
      (h2 : executeInstruction (fetchWord s) s = r) (h3 : r.halt = false)
      (h4 : r.st.pc < MEM_SIZE) :
      StepR (.running s) [(s.pc, (disassemble (fetchWord s) s.pc).1)] (.running r.st)

/-- n iterations of the loop as a relation, concatenating trace entries. -/
inductive RunR : MState → Nat → List (Nat × String) → MState → Prop where
  | nil (m : MState) : RunR m 0 [] m
  | cons {m m' m'' : MState} {t ts : List (Nat × String)} {n : Nat}
      (hs : StepR m t m') (hr : RunR m' n ts m'') : RunR m (n + 1) (t ++ ts) m''

/-- A concrete state for exercising RegReg sub: t0 = 3, ra = 5. -/
def subExample : SimState :=
  { regs := fun i => if i = 0 then 3 else if i = 1 then 5 else 0,
    pc := 0, mem := fun _ => 0 }

/-- The execution engine never reports halt: `svc` is truncated to a uint8_t,
so the comparison against 0x3FF on line 273 can never succeed. -/
lemma exec_halt_false (inst : Nat) (s : SimState) :
    (executeInstruction inst s).halt = false := by
  unfold executeInstruction
  split_ifs <;> try rfl
  have hlt : ((inst >>> 6) &&& 0x1FF) % 256 < 256 := Nat.mod_lt _ (by norm_num)
  omega

/-- Every path of the execution engine performs the default `pc += 2`
(mod 2^16): the only path that would not is the dead halt path. -/
lemma exec_pc (inst : Nat) (s : SimState) :
    (executeInstruction inst s).st.pc = (s.pc + 2) % 65536 := by
  unfold executeInstruction
  split_ifs <;> try rfl
  have hlt : ((inst >>> 6) &&& 0x1FF) % 256 < 256 := Nat.mod_lt _ (by norm_num)
  omega

/-- The execution engine never writes memory. -/
lemma exec_mem (inst : Nat) (s : SimState) :
    (executeInstruction inst s).st.mem = s.mem := by
  unfold executeInstruction
  split_ifs <;> rfl

/-- Register effects of the execution engine: either the register file is
unchanged, or the instruction is a RegReg add/sub and only rd_rs1 changed. -/
lemma exec_regs (inst : Nat) (s : SimState) :
    (executeInstruction inst s).st.regs = s.regs ∨
    (inst &&& 0x7 = 0x0 ∧ (inst >>> 3) &&& 0x7 = 0x0 ∧
      ((inst >>> 12) &&& 0xF = 0x0 ∨ (inst >>> 12) &&& 0xF = 0x1) ∧
      ∀ i : Nat, i ≠ (inst >>> 6) &&& 0x7 →
        (executeInstruction inst s).st.regs i = s.regs i) := by
  unfold executeInstruction
  split_ifs with h1 h2 h3
  · exact Or.inr ⟨h1, h2.2, Or.inl h2.1, fun i hi => by simp [incPC, setReg, hi]⟩
  · exact Or.inr ⟨h1, h3.2, Or.inr h3.1, fun i hi => by simp [incPC, setReg, hi]⟩
  all_goals exact Or.inl rfl

/-- The state after one loop iteration has pc either unchanged (guard
failure) or advanced by the execution engine. -/
lemma loopStep_pc (s : SimState) :
    pcOfL (loopStep s) = s.pc ∨ pcOfL (loopStep s) = (s.pc + 2) % 65536 := by
  unfold loopStep
  split_ifs with h1 h2 h3
  · exact Or.inr (by simp [pcOfL, exec_pc])
  · exact Or.inr (by simp [pcOfL, exec_pc])
  · exact Or.inr (by simp [pcOfL, exec_pc])
  · exact Or.inl rfl

/-- One machine transition preserves pc evenness. -/
lemma mstep_pc_even {m : MState} (h : pcOfM m % 2 = 0) :
    pcOfM (mstep m) % 2 = 0 := by
  cases m with
  | halted s => simpa [mstep, pcOfM] using h
  | running s =>
    have hps := loopStep_pc s
    have hpc : pcOfM (mstep (MState.running s)) = pcOfL (loopStep s) := by
      unfold mstep
      cases hL : loopStep s <;> simp [pcOfM, pcOfL, hL]
    rw [hpc]
    simp only [pcOfM] at h
    rcases hps with h1 | h1 <;> rw [h1]
    · exact h
    · rw [Nat.mod_mod_of_dvd _ (by norm_num : (2 : Nat) ∣ 65536)]
      omega

/-- Any number of machine transitions preserves pc evenness. -/
lemma mrun_pc_even : ∀ (k : Nat) (m : MState),
    pcOfM m % 2 = 0 → pcOfM (mrun k m) % 2 = 0 := by
  intro k
  induction k with
  | zero => intro m h; simpa [mrun] using h
  | succ j ih => intro m h; exact ih _ (mstep_pc_even h)

/-- The loop-step relation is single-valued: the guards of its constructors
are mutually exclusive. -/
lemma stepR_det {m : MState} {t1 t2 : List (Nat × String)} {m1 m2 : MState}
    (h1 : StepR m t1 m1) (h2 : StepR m t2 m2) : t1 = t2 ∧ m1 = m2 := by
  cases h1 with
  | stay s =>
    cases h2 with
    | stay _ => exact ⟨rfl, rfl⟩
  | exhaust s hs =>
    cases h2 with
    | exhaust _ _ => exact ⟨rfl, rfl⟩
    | svcStop _ r2 hp _ _ => exact absurd hp (by omega)
    | pcOver _ r2 hp _ _ _ => exact absurd hp (by omega)
    | step _ r2 hp _ _ _ => exact absurd hp (by omega)
  | svcStop s r hp he hh =>
    cases h2 with
    | exhaust _ hs => exact absurd hp (by omega)
    | svcStop _ r2 _ he2 _ =>
      rw [he] at he2; subst he2; exact ⟨rfl, rfl⟩
    | pcOver _ r2 _ he2 hh2 _ =>
      rw [he] at he2; subst he2; exact absurd (hh.symm.trans hh2) (by decide)
    | step _ r2 _ he2 hh2 _ =>
      rw [he] at he2; subst he2; exact absurd (hh.symm.trans hh2) (by decide)
  | pcOver s r hp he hh hover =>
    cases h2 with
    | exhaust _ hs => exact absurd hp (by omega)
    | svcStop _ r2 _ he2 hh2 =>
      rw [he] at he2; subst he2; exact absurd (hh.symm.trans hh2) (by decide)
    | pcOver _ r2 _ he2 _ _ =>
      rw [he] at he2; subst he2; exact ⟨rfl, rfl⟩
    | step _ r2 _ he2 _ hlt2 =>
      rw [he] at he2; subst he2; exact absurd hlt2 (by omega)
  | step s r hp he hh hlt =>
    cases h2 with
    | exhaust _ hs => exact absurd hp (by omega)
    | svcStop _ r2 _ he2 hh2 =>
      rw [he] at he2; subst he2; exact absurd (hh.symm.trans hh2) (by decide)
    | pcOver _ r2 _ he2 _ hover2 =>
      rw [he] at he2; subst he2; exact absurd hover2 (by omega)
    | step _ r2 _ he2 _ _ =>
      rw [he] at he2; subst he2; exact ⟨rfl, rfl⟩

/-- Bounded runs of the loop are single-valued. -/
lemma runR_det : ∀ {n : Nat} {m m1 m2 : MState} {t1 t2 : List (Nat × String)},
    RunR m n t1 m1 → RunR m n t2 m2 → t1 = t2 ∧ m1 = m2 := by
  intro n
  induction n with
  | zero =>
    intro m m1 m2 t1 t2 h1 h2
    cases h1; cases h2; exact ⟨rfl, rfl⟩
  | succ k ih =>
    intro m m1 m2 t1 t2 h1 h2
    cases h1 with
    | cons hs1 hr1 =>
      cases h2 with
      | cons hs2 hr2 =>
        obtain ⟨hteq, hmeq⟩ := stepR_det hs1 hs2
        subst hmeq
        obtain ⟨hteq2, hmeq2⟩ := ih hr1 hr2
        exact ⟨by rw [hteq, hteq2], hmeq2⟩

/-- C1: at the failing input inst = 0x00C7 (opcode 7, svc field = 3) the
execution engine does not report halt: its svc variable holds 3, it returns
the continue signal, and pc advances by 2 — contrary to the claim that
svc = 3 stops the simulation (the halt test compares the uint8_t svc against
0x3FF, which can never match). -/
theorem c1_ecall3_does_not_halt :
    (executeInstruction 0xC7 (initState (fun _ => 0))).halt = false ∧
    (executeInstruction 0xC7 (initState (fun _ => 0))).st.pc = 2 ∧
    ((0xC7 >>> 6) &&& 0x1FF) % 256 = 3 := ⟨rfl, rfl, rfl⟩

/-- C2: at the failing input inst = 0x2039 (opcode 1, funct3 = 7, imm7 field
= 16) the disassembler renders the immediate as 0 (it masks with 0xF) while
the executor extracts 16 from the 7-bit field — so the two disagree,
contrary to the claim. -/
theorem c2_imm_field_mismatch :
    (disassemble 0x2039 0).1 = "li t0, 0" ∧ exec_imm7 0x2039 = 16 ∧
    (0 : Nat) ≠ 16 := ⟨rfl, rfl, by decide⟩

/-- C3: executing li t0, 5 (inst = 0x0A39) from the zeroed initial state
leaves t0 = 0, not 5, because the I-type execute case is an unfilled stub;
pc still advances by 2. -/
theorem c3_li_unimplemented :
    (executeInstruction 0xA39 (initState (fun _ => 0))).st.regs 0 = 0 ∧
    (executeInstruction 0xA39 (initState (fun _ => 0))).st.pc = 2 := ⟨rfl, rfl⟩

/-- C4: at the failing input inst = 0x0206 (opcode 6, link = 0, imm_hi field
= 1, imm_lo field = 0) the disassembler renders lui with immediate 0: its
imm_high is computed with a left shift, `(inst << 9) & 0x3F`, which is always
zero, so the imm_hi field is never placed at bits [15:10] as the claim
states (the assembled value would have to be 1024). -/
theorem c4_upper_imm_dropped :
    (disassemble 0x206 0).1 = "lui t0, 0" ∧ (0x206 >>> 9) &&& 0x3F = 1 := ⟨rfl, rfl⟩

/-- C5: opcode dispatch is exhaustive in the disassembler (its default
branch, the only writer of buf, is unreachable because the 3-bit opcode is
at most 7), but in the executor the default branch is reachable: opcode 4
has no case, and at the failing input inst = 0x0004 the engine prints its
unknown-opcode diagnostic — contrary to the claim that the default is
unreachable in both functions. -/
theorem c5_dispatch_default :
    (∀ (inst a : Nat), (disassemble inst a).2 = none) ∧
    (executeInstruction 0x4 (initState (fun _ => 0))).out =
      ["Unknown instruction opcode 0x4\n"] := by
  constructor
  · intro inst a
    have hle : inst &&& 0x7 ≤ 7 := Nat.and_le_right
    unfold disassemble
    generalize inst &&& 0x7 = o at hle ⊢
    interval_cases o <;> rfl
  · rfl

/-- C6: with PC = 65535 (memory capacity − 1) at the top of the loop, the
iteration does not halt: the guard 65535 < MEM_SIZE passes and the fetch
expression reads memory indices 65535 and 65536 — the second is at memory
capacity, an out-of-bounds access, demonstrated by two memories that agree
on every index below 65536 yet produce different fetched words.  This
contradicts the claim that this PC triggers HALTED with no read at or
beyond 65536. -/
theorem c6_fetch_out_of_bounds :
    isHalted (loopStep { regs := fun _ => 0, pc := 65535, mem := fun _ => 0 }) = false ∧
    fetchWord { regs := fun _ => 0, pc := 65535, mem := fun _ => 0 } = 0 ∧
    fetchWord { regs := fun _ => 0, pc := 65535,
                mem := fun a => if a = 65536 then 1 else 0 } = 256 ∧
    fetchReads 65535 = [65535, 65536] ∧ MEM_SIZE ≤ 65536 :=
  ⟨rfl, rfl, rfl, rfl, by decide⟩

/-- C7: a RegReg add (opcode 0, funct4  0, funct3 0) stores
(rd_rs1 + rs2) mod 2^16 into rd_rs1, and a RegReg sub (funct4 1, funct3 0)
stores (rd_rs1 − rs2) mod 2^16 (the Euclidean remainder of the integer
difference), for all register values. -/
theorem c7_regreg_add_sub_mod (inst : Nat) (s : SimState)
    (hop : inst &&& 0x7 = 0x0) (hf3 : (inst >>> 3) &&& 0x7 = 0x0) :
    ((inst >>> 12) &&& 0xF = 0x0 →
      (executeInstruction inst s).st.regs ((inst >>> 6) &&& 0x7) =
        (s.regs ((inst >>> 6) &&& 0x7) + s.regs ((inst >>> 9) &&& 0x7)) % 65536) ∧
    ((inst >>> 12) &&& 0xF = 0x1 →
      (executeInstruction inst s).st.regs ((inst >>> 6) &&& 0x7) =
        (((s.regs ((inst >>> 6) &&& 0x7) : Int) -
          (s.regs ((inst >>> 9) &&& 0x7) : Int)) % 65536).toNat) := by
  constructor
  · intro hf4
    simp [executeInstruction, hop, hf3, hf4, incPC, setReg, wrap16]
  · intro hf4
    simp [executeInstruction, hop, hf3, hf4, incPC, setReg, wrap16]

/-- Witness for C7: sub t0, ra (inst = 0x1200) on t0 = 3, ra = 5 wraps to
65534 = (3 − 5) mod 2^16. -/
theorem c7_witness :
    (executeInstruction 0x1200 subExample).st.regs 0 = 65534 := by
  have h := (c7_regreg_add_sub_mod 0x1200 subExample (by decide) (by decide)).2 (by decide)
  exact h.trans (by decide)

/-- C8: in every state the fetch-execute loop reaches from the initial state
(pc = 0, registers zeroed), after any number of iterations, the program
counter is even. -/
theorem c8_pc_always_even (mem : Nat → Nat) (n : Nat) :
    pcOfM (mrun n (MState.running (initState mem))) % 2 = 0 :=
  mrun_pc_even n _ rfl

/-- C9: the simulation is deterministic: any two runs of the same length
from the same initial memory image produce the same trace (fetched addresses
with disassembled text) and end in the same machine state. -/
theorem c9_deterministic (mem : Nat → Nat) (n : Nat)
    (t1 t2 : List (Nat × String)) (m1 m2 : MState)
    (h1 : RunR (MState.running (initState mem)) n t1 m1)
    (h2 : RunR (MState.running (initState mem)) n t2 m2) :
    t1 = t2 ∧ m1 = m2 :=
  runR_det h1 h2

/-- Witness for C9: a concrete one-step run from the all-zero image exists,
and the theorem applied to it twice confirms trace and final state agree. -/
theorem c9_witness :
    ([((0 : Nat), (disassemble 0 0).1)] = [((0 : Nat), (disassemble 0 0).1)]) ∧
    (MState.running (executeInstruction 0 (initState (fun _ => 0))).st =
      MState.running (executeInstruction 0 (initState (fun _ => 0))).st) := by
  have hs : StepR (MState.running (initState (fun _ => 0)))
      [((0 : Nat), (disassemble 0 0).1)]
      (MState.running (executeInstruction 0 (initState (fun _ => 0))).st) :=
    StepR.step (initState (fun _ => 0))
      (executeInstruction (fetchWord (initState (fun _ => 0))) (initState (fun _ => 0)))
      (by decide) rfl (by decide) (by decide)
  have hr : RunR (MState.running (initState (fun _ => 0))) 1
      [((0 : Nat), (disassemble 0 0).1)]
      (MState.running (executeInstruction 0 (initState (fun _ => 0))).st) :=
    RunR.cons hs (RunR.nil _)
  exact c9_deterministic (fun _ => 0) 1 _ _ _ _ hr hr

/-- C10: an instruction whose opcode is neither 0 nor 7 leaves every
register and every memory byte unchanged and advances pc by 2 (mod 2^16);
and whenever the executor changes a register at all, the instruction is a
RegReg add or sub and the changed register is rd_rs1. -/
theorem c10_frame (inst : Nat) (s : SimState) :
    ((inst &&& 0x7 ≠ 0x0 → inst &&& 0x7 ≠ 0x7 →
        (executeInstruction inst s).st.regs = s.regs ∧
        (executeInstruction inst s).st.mem = s.mem ∧
        (executeInstruction inst s).st.pc = (s.pc + 2) % 65536) ∧
      ∀ i : Nat, (executeInstruction inst s).st.regs i ≠ s.regs i →
        inst &&& 0x7 = 0x0 ∧ (inst >>> 3) &&& 0x7 = 0x0 ∧
        ((inst >>> 12) &&& 0xF = 0x0 ∨ (inst >>> 12) &&& 0xF = 0x1) ∧
        i = (inst >>> 6) &&& 0x7) := by
  constructor
  · intro hne0 _hne7
    refine ⟨?_, exec_mem inst s, exec_pc inst s⟩
    rcases exec_regs inst s with h | h
    · exact h
    · exact absurd h.1 hne0
  · intro i hi
    rcases exec_regs inst s with h | h
    · exact absurd (congrFun h i) hi
    · refine ⟨h.1, h.2.1, h.2.2.1, ?_⟩
      by_contra hni
      exact hi (h.2.2.2 i hni)

/-- Witness for C10: the I-type stub word inst = 0x0009 from the zeroed
state changes no register and advances pc to 2. -/
theorem c10_witness :
    (executeInstruction 0x9 (initState (fun _ => 0))).st.regs =
      (initState (fun _ => 0)).regs ∧
    (executeInstruction 0x9 (initState (fun _ => 0))).st.pc = 2 := by
  have h := (c10_frame 0x9 (initState (fun _ => 0))).1 (by decide) (by decide)
  exact ⟨h.1, h.2.2.trans (by decide)⟩

end Z16
